import Mathlib

/-!
Shallow embedding of the authentication and authorization core of the
Library API (Express + Prisma + jsonwebtoken + bcryptjs).

Source files embedded here:
  * `app.js` — the auth endpoints `POST /api/v1/auth/register`,
    `POST /api/v1/auth/login`, `POST /api/v1/auth/refresh`;
  * `middleware/authrefresh.js` (src/unnamed/part_002) —
    `authenticateRefreshToken`;
  * `middleware/roles.js` (src/unnamed/part_003) — the two variants of
    `authorizeRoles`.

Modelling conventions:
  * Time is a natural number of seconds (`now`); the jsonwebtoken
    `expiresIn` strings "1d" and "30d" are 86400 and 2592000 seconds.
  * A JWT string is modelled by the inductive `Token`: `signed c k e`
    stands for a well-formed JWT carrying payload `c`, signed with secret
    `k` and carrying expiry timestamp `e`; `malformed s` stands for any
    other string `s` (including the scheme word "Bearer" and the empty
    string).
  * The `Authorization` header is represented by its list of
    space-separated words (the JS code's only use of the raw header is
    `authHeader.split(' ')`, and `String.intercalate " "` recovers the
    original string from its `splitOn " "` image, so this representation
    is lossless).
  * JavaScript runtime exceptions (ReferenceError, TypeError, library
    errors) are modelled with `Except JsError`.
  * `jsToLowerCase`/`jsTrim` model JS `toLowerCase()`/`trim()`
    (they agree on ASCII data; full Unicode case folding is out of scope).
-/

/-- A JSON value as it can appear in a JWT payload field. -/
inductive JsonVal where
  | str (s : String)
  | num (n : Int)
  | boolean (b : Bool)
  | null
deriving Repr, DecidableEq

/-- The JWT payload shape signed by the auth endpoints: `{ userId, role }`.
The `role` field is optional and untyped, since `jwt.verify` returns
whatever payload the token carries — nothing forces a `role` string to be
present (see the role middleware, which assumes it is). -/
structure JwtClaims where
  userId : Nat
  role : Option JsonVal
deriving Repr, DecidableEq

/-- A string in token position: either a well-formed JWT (payload, signing
secret, expiry timestamp) or any other string. -/
inductive Token where
  | signed (claims : JwtClaims) (secret : String) (exp : Nat)
  | malformed (s : String)
deriving Repr, DecidableEq

/-- Whether the string this token stands for is the empty string (the only
falsy non-undefined value a split word can be in JS). A well-formed JWT is
never the empty string. -/
def Token.isEmptyStr : Token → Bool
  | .malformed s => s = ""
  | .signed _ _ _ => false

/-- Verification errors of the jsonwebtoken library. -/
inductive JwtError where
  | invalidSignature
  | expired
  | malformedToken
deriving Repr, DecidableEq

/-- Model of `jwt.sign(claims, secret, { expiresIn: ttl })` at clock time
`now`: the expiry embedded in the token is `now + ttl`. -/
def jwtSign (claims : JwtClaims) (secret : String) (ttl : Nat) (now : Nat) : Token :=
  .signed claims secret (now + ttl)

/-- Model of `jwt.verify(token, secret)` at clock time `now`: a malformed
string fails outright; a well-formed JWT fails with `invalidSignature`
when signed with a different secret, with `expired` once the clock has
reached its expiry, and otherwise yields its decoded payload. -/
def jwtVerify (t : Token) (secret : String) (now : Nat) : Except JwtError JwtClaims :=
  match t with
  | .malformed _ => .error .malformedToken
  | .signed c s e =>
    if s ≠ secret then .error .invalidSignature
    else if e ≤ now then .error .expired
    else .ok c

/-- JavaScript runtime exceptions surfaced by this core. -/
inductive JsError where
  | referenceError (ident : String)
  | typeError (msg : String)
  | prismaError (msg : String)
  | bcryptError (msg : String)
deriving Repr, DecidableEq

/-- The `err.message` string the handlers serialize into 500 bodies. -/
def JsError.message : JsError → String
  | .referenceError ident => ident ++ " is not defined"
  | .typeError m => m
  | .prismaError m => m
  | .bcryptError m => m

/-- Process environment: the two signing secrets read from
`process.env.ACCESS_TOKEN_SECRET` / `process.env.REFRESH_TOKEN_SECRET`. -/
structure Env where
  ACCESS_TOKEN_SECRET : String
  REFRESH_TOKEN_SECRET : String
deriving Repr, DecidableEq

/-- An HTTP request as seen by this middleware chain: the `Authorization`
header (absent, or its space-split word list) and the `req.user` identity
context a token middleware may have attached. -/
structure Request where
  authorizationWords : Option (List Token)
  user : Option JwtClaims
deriving Repr, DecidableEq

deriving instance DecidableEq for Except

/-- Model of JavaScript `s.toLowerCase()` (ASCII case folding), written
over the character list so it evaluates by structural recursion. -/
def jsToLowerCase (s : String) : String :=
  ⟨s.data.map Char.toLower⟩

/-- Model of JavaScript `s.trim()`: drop whitespace from both ends,
written over the character list so it evaluates by structural recursion. -/
def jsTrim (s : String) : String :=
  ⟨((s.data.dropWhile Char.isWhitespace).reverse.dropWhile Char.isWhitespace).reverse⟩

/-- Outcome of one middleware stage: respond-and-halt with a status code
and the string under the `error` key of the JSON body, or call `next()`
with the (possibly updated) request. -/
inductive MwResult where
  | halt (status : Nat) (error : String)
  | next (req : Request)
deriving Repr, DecidableEq

/-- `const token = authHeader && authHeader.split(' ')[1]` followed by the
falsiness test `if (!token)`: the extracted bearer token, or `none` when
the header is absent, has no word at index 1, or that word is the empty
string. -/
def headerToken : Option (List Token) → Option Token
  | none => none
  | some ws =>
    match ws.get? 1 with
    | none => none
    | some t => if t.isEmptyStr then none else some t

/-- `authenticateRefreshToken` from `middleware/authrefresh.js`: extract
the bearer token; respond 401 `{error: "Token manquant"}` when it is
missing; verify it against `process.env.REFRESH_TOKEN_SECRET`; respond
403 `{error: "Token invalide"}` on any verification error; on success
attach the decoded payload to `req.user` and call `next()`. -/
def authenticateRefreshToken (env : Env) (now : Nat) (req : Request) : MwResult :=
  match headerToken req.authorizationWords with
  | none => .halt 401 "Token manquant"
  | some token =>
    match jwtVerify token env.REFRESH_TOKEN_SECRET now with
    | .error _ => .halt 403 "Token invalide"
    | .ok user => .next { req with user := some user }

/-- Whether an optional JSON value is present and a string — the only case
in which JavaScript's `value.trim()` does not throw. -/
def roleIsString : Option JsonVal → Bool
  | some (.str _) => true
  | _ => false

/-- Second (current) variant of `authorizeRoles` from
`middleware/roles.js`, applied to the middleware arguments: 401 when
`req.user` is absent; otherwise evaluate `req.user.role.trim()` — a
TypeError when `role` is absent or not a string; otherwise 403 unless the
trimmed role, lowercased, occurs among the lowercased allowed roles, in
which case `next()` is called with the request untouched. -/
def authorizeRoles (allowedRoles : List String) (req : Request) : Except JsError MwResult :=
  match req.user with
  | none => .ok (.halt 401 "Non authentifié")
  | some user =>
    match user.role with
    | some (.str r) =>
      let role := jsTrim r
      if (allowedRoles.map jsToLowerCase).contains (jsToLowerCase role) then
        .ok (.next req)
      else
        .ok (.halt 403 "Accès interdit pour ce rôle")
    | _ => .error (.typeError "req.user.role.trim is not a function")

/-- In the module of the first `authorizeRoles` variant the identifier
`PrismaClient` is never imported or declared, so evaluating
`new PrismaClient()` throws a ReferenceError. -/
def lookupPrismaClient : Except JsError Unit :=
  .error (.referenceError "PrismaClient")

/-- First variant of `authorizeRoles` from `middleware/roles.js`: it first
evaluates `new PrismaClient()` (an unbound identifier — see
`lookupPrismaClient`), then performs the same checks as the second
variant, with a 403 message that appends the offending role and the
allowed list. -/
def authorizeRolesFirst (allowedRoles : List String) (req : Request) : Except JsError MwResult := do
  let _prisma ← lookupPrismaClient
  match req.user with
  | none => pure (.halt 401 "Non authentifié")
  | some user =>
    match user.role with
    | some (.str r) =>
      let role := jsTrim r
      if (allowedRoles.map jsToLowerCase).contains (jsToLowerCase role) then
        pure (.next req)
      else
        pure (.halt 403
          ("Accès interdit pour ce rôle : " ++ role ++ " allowed : " ++
            String.intercalate "," allowedRoles))
    | _ => .error (.typeError "req.user.role.trim is not a function")

/-- Model of a bcrypt hash: a one-way salted digest is determined by the
plaintext it was derived from and the random salt drawn at hashing time
(so the same plaintext hashes differently under different salts). -/
structure BcryptHash where
  ofPlain : String
  salt : Nat
deriving Repr, DecidableEq

/-- Model of `bcrypt.hash(plain, 10)` with the salt `salt` drawn for this
call. -/
def bcryptHash (plain : String) (salt : Nat) : BcryptHash :=
  ⟨plain, salt⟩

/-- Model of `bcrypt.compare(plain, stored)`: true exactly when `stored`
was produced by hashing `plain` (with whatever salt). -/
def bcryptCompare (plain : String) (stored : BcryptHash) : Bool :=
  stored.ofPlain = plain

/-- `bcrypt.hash` as called with a possibly-undefined body field: bcryptjs
rejects a non-string input with an error rather than hashing it. -/
def bcryptHashJs (plain : Option String) (salt : Nat) : Except JsError BcryptHash :=
  match plain with
  | some p => .ok (bcryptHash p salt)
  | none => .error (.bcryptError "Illegal arguments: undefined, number")

/-- A persisted `User` row: serial id, unique email, stored password hash,
role label. -/
structure User where
  id : Nat
  email : String
  password : BcryptHash
  role : String
deriving Repr, DecidableEq

/-- Model of `prisma.user.create({data: {email, password, role}})` over a
list-of-rows store: Prisma throws a validation error when the required
`email` argument is `undefined`, and a unique-constraint error when the
email is already taken; otherwise it inserts a row with the next serial
id and returns it. -/
def prismaUserCreate (db : List User) (email : Option String) (password : BcryptHash)
    (role : String) : Except JsError (User × List User) :=
  match email with
  | none => .error (.prismaError "Argument email is missing.")
  | some e =>
    if db.any (fun u => u.email = e) then
      .error (.prismaError "Unique constraint failed on the fields: (email)")
    else
      let u : User := ⟨db.length + 1, e, password, role⟩
      .ok (u, db ++ [u])

/-- The JSON body of a response from the auth endpoints or from a halted
middleware stage. -/
inductive Body where
  | errorMsg (error : String)
  | message (message : String)
  | userRecord (u : User)
  | loginSuccess (message : String) (accessToken : Token)
  | accessTokenBody (accessToken : Token)
deriving Repr, DecidableEq

/-- The tokens a response body delivers to the caller. -/
def Body.tokens : Body → List Token
  | .loginSuccess _ t => [t]
  | .accessTokenBody t => [t]
  | _ => []

/-- What an endpoint does with a request: send a response, or let an
exception escape the handler so that this code sends no response at all. -/
inductive HandlerOutcome where
  | response (status : Nat) (body : Body)
  | threw (e : JsError)
deriving Repr, DecidableEq

/-- The body of a register request, each field possibly absent. -/
structure RegisterBody where
  email : Option String
  password : Option String
deriving Repr, DecidableEq

/-- Handler of `POST /api/v1/auth/register`: reads `{email, password}`,
fixes `role = 'user'`, hashes the password (outside the try/catch — a
hash failure escapes the handler), persists the user, and answers 201
with the full created row; a persistence error is answered 500 with the
error message. Returns the outcome together with the resulting store. -/
def registerHandler (db : List User) (body : RegisterBody) (salt : Nat) :
    HandlerOutcome × List User :=
  match bcryptHashJs body.password salt with
  | .error e => (.threw e, db)
  | .ok hashed =>
    match prismaUserCreate db body.email hashed "user" with
    | .error e => (.response 500 (.errorMsg e.message), db)
    | .ok (u, db2) => (.response 201 (.userRecord u), db2)

/-- jsonwebtoken `expiresIn: "1d"` in seconds. -/
def oneDayS : Nat := 86400

/-- jsonwebtoken `expiresIn: "30d"` in seconds. -/
def thirtyDaysS : Nat := 2592000

/-- The access token the login handler signs: payload
`{userId: user.id, role: user.role}`, secret
`process.env.ACCESS_TOKEN_SECRET`, `expiresIn: "1d"`. -/
def loginAccessToken (env : Env) (user : User) (now : Nat) : Token :=
  jwtSign ⟨user.id, some (.str user.role)⟩ env.ACCESS_TOKEN_SECRET oneDayS now

/-- The refresh token the login handler signs: same payload, secret
`process.env.REFRESH_TOKEN_SECRET`, `expiresIn: "30d"`. -/
def loginRefreshToken (env : Env) (user : User) (now : Nat) : Token :=
  jwtSign ⟨user.id, some (.str user.role)⟩ env.REFRESH_TOKEN_SECRET thirtyDaysS now

set_option linter.unusedVariables false in
/-- Handler of `POST /api/v1/auth/login`: look the user up by email (400
`{message: "Utilisateur introuvable"}` when absent), compare the password
(400 `{message: "Mot de passe incorrect"}` on mismatch), then sign both
an access token and a refresh token — and answer 200 with a body holding
only the message and the access token (the computed refresh token is
bound to a local and never used again). -/
def loginHandler (env : Env) (db : List User) (email password : String) (now : Nat) :
    HandlerOutcome :=
  match db.find? (fun u => u.email = email) with
  | none => .response 400 (.message "Utilisateur introuvable")
  | some user =>
    if bcryptCompare password user.password then
      let accessToken := loginAccessToken env user now
      let refreshToken := loginRefreshToken env user now
      .response 200 (.loginSuccess "Connexion réussie" accessToken)
    else
      .response 400 (.message "Mot de passe incorrect")

/-- In the refresh handler's scope the identifier `user` is free: the
handler never declares it, the middleware wrote the decoded claims to
`req.user` (not to a variable `user`), and no module-level `user` exists
in `app.js`. Evaluating `user.id` therefore throws a ReferenceError. -/
def lookupUserVar : Except JsError JwtClaims :=
  .error (.referenceError "user")

/-- Handler of `POST /api/v1/auth/refresh` (runs after
`authenticateRefreshToken`): inside a try/catch it signs
`jwt.sign({userId: user.id, role: user.role}, ACCESS_TOKEN_SECRET,
{expiresIn: "1d"})` where `user` is the free identifier modelled by
`lookupUserVar`, so the ReferenceError is caught and answered 500
`{error: "Erreur serveur"}`; the 200 branch is dead code. -/
def refreshHandler (env : Env) (now : Nat) (_req : Request) : HandlerOutcome :=
  match lookupUserVar with
  | .error _ => .response 500 (.errorMsg "Erreur serveur")
  | .ok user =>
    .response 200 (.accessTokenBody
      (jwtSign ⟨user.userId, user.role⟩ env.ACCESS_TOKEN_SECRET oneDayS now))

/-- The `POST /api/v1/auth/refresh` route: `authenticateRefreshToken`
followed by `refreshHandler`; a halted middleware stage is the route's
response and the handler never runs. -/
def refreshEndpoint (env : Env) (now : Nat) (req : Request) : HandlerOutcome :=
  match authenticateRefreshToken env now req with
  | .halt status err => .response status (.errorMsg err)
  | .next req2 => refreshHandler env now req2

/-- C3: when the Authorization header yields no bearer token (header
absent, or no nonempty word after the scheme word), the refresh-token
middleware responds 401 `{error: "Token manquant"}` and halts, so on the
refresh route the handler never runs and the 401 is the route's whole
response. -/
theorem authenticateRefreshToken_missing_token (env : Env) (now : Nat) (req : Request)
    (h : headerToken req.authorizationWords = none) :
    authenticateRefreshToken env now req = .halt 401 "Token manquant" ∧
    refreshEndpoint env now req = .response 401 (.errorMsg "Token manquant") := by
  have h1 : authenticateRefreshToken env now req = .halt 401 "Token manquant" := by
    simp only [authenticateRefreshToken, h]
  exact ⟨h1, by simp only [refreshEndpoint, h1]⟩

/-- Witness for C3 at a request with no Authorization header. -/
theorem authenticateRefreshToken_missing_token_witness :
    authenticateRefreshToken ⟨"as", "rs"⟩ 5 ⟨none, none⟩ = .halt 401 "Token manquant" ∧
    refreshEndpoint ⟨"as", "rs"⟩ 5 ⟨none, none⟩ = .response 401 (.errorMsg "Token manquant") :=
  authenticateRefreshToken_missing_token ⟨"as", "rs"⟩ 5 ⟨none, none⟩ rfl

/-- C4: whenever the presented token fails verification against the
refresh secret — for any failure reason (invalid signature, malformed
token, or expiry) — the refresh-token middleware responds 403
`{error: "Token invalide"}` and halts, so the handler never runs; the
response does not depend on which failure occurred. -/
theorem authenticateRefreshToken_invalid_token (env : Env) (now : Nat) (req : Request)
    (t : Token) (e : JwtError)
    (ht : headerToken req.authorizationWords = some t)
    (hv : jwtVerify t env.REFRESH_TOKEN_SECRET now = .error e) :
    authenticateRefreshToken env now req = .halt 403 "Token invalide" ∧
    refreshEndpoint env now req = .response 403 (.errorMsg "Token invalide") := by
  have h1 : authenticateRefreshToken env now req = .halt 403 "Token invalide" := by
    simp only [authenticateRefreshToken, ht, hv]
  exact ⟨h1, by simp only [refreshEndpoint, h1]⟩

/-- Witness for C4 at an expired token signed with the right secret. -/
theorem authenticateRefreshToken_invalid_token_witness :
    authenticateRefreshToken ⟨"as", "rs"⟩ 200
        ⟨some [.malformed "Bearer", .signed ⟨1, some (.str "user")⟩ "rs" 100], none⟩ =
      .halt 403 "Token invalide" ∧
    refreshEndpoint ⟨"as", "rs"⟩ 200
        ⟨some [.malformed "Bearer", .signed ⟨1, some (.str "user")⟩ "rs" 100], none⟩ =
      .response 403 (.errorMsg "Token invalide") :=
  authenticateRefreshToken_invalid_token ⟨"as", "rs"⟩ 200
    ⟨some [.malformed "Bearer", .signed ⟨1, some (.str "user")⟩ "rs" 100], none⟩
    (.signed ⟨1, some (.str "user")⟩ "rs" 100) .expired rfl (by decide)

/-- C5: with an identity context carrying a string role `r` and an
allowed-role list fixed at composition time, the role middleware calls
`next` with the request unchanged exactly when the trimmed `r` matches
some allowed role case-insensitively, and otherwise responds 403 and
halts. -/
theorem authorizeRoles_role_check (S : List String) (req : Request) (u : JwtClaims)
    (r : String) (hu : req.user = some u) (hr : u.role = some (.str r)) :
    ((∃ a ∈ S, jsToLowerCase (jsTrim r) = jsToLowerCase a) →
      authorizeRoles S req = .ok (.next req)) ∧
    ((¬ ∃ a ∈ S, jsToLowerCase (jsTrim r) = jsToLowerCase a) →
      authorizeRoles S req = .ok (.halt 403 "Accès interdit pour ce rôle")) := by
  have hbase : authorizeRoles S req =
      if (S.map jsToLowerCase).contains (jsToLowerCase (jsTrim r)) then .ok (.next req)
      else .ok (.halt 403 "Accès interdit pour ce rôle") := by
    simp only [authorizeRoles, hu, hr]
  have hc : ((S.map jsToLowerCase).contains (jsToLowerCase (jsTrim r)) = true) ↔
      ∃ a ∈ S, jsToLowerCase (jsTrim r) = jsToLowerCase a := by
    simp only [List.elem_iff, List.contains, List.mem_map]
    constructor
    · rintro ⟨a, ha, haeq⟩
      exact ⟨a, ha, haeq.symm⟩
    · rintro ⟨a, ha, haeq⟩
      exact ⟨a, ha, haeq.symm⟩
  constructor
  · intro hex
    rw [hbase, if_pos (hc.mpr hex)]
  · intro hnex
    rw [hbase, if_neg (fun hif => hnex (hc.mp hif))]

/-- Witness for C5: role " Admin " passes a lowercase allowed list after
trimming and case folding, and role "user" is refused by it. -/
theorem authorizeRoles_role_check_witness :
    authorizeRoles ["admin"] ⟨none, some ⟨1, some (.str " Admin ")⟩⟩ =
      .ok (.next ⟨none, some ⟨1, some (.str " Admin ")⟩⟩) ∧
    authorizeRoles ["admin"] ⟨none, some ⟨2, some (.str "user")⟩⟩ =
      .ok (.halt 403 "Accès interdit pour ce rôle") :=
  ⟨(authorizeRoles_role_check ["admin"] ⟨none, some ⟨1, some (.str " Admin ")⟩⟩
      ⟨1, some (.str " Admin ")⟩ " Admin " rfl rfl).1
      ⟨"admin", by decide, by decide⟩,
    (authorizeRoles_role_check ["admin"] ⟨none, some ⟨2, some (.str "user")⟩⟩
      ⟨2, some (.str "user")⟩ "user" rfl rfl).2
      (by decide)⟩

/-- C9: the first `authorizeRoles` variant evaluates the unbound
identifier `PrismaClient` first, so every invocation throws a
ReferenceError before any authentication or role check; no 401, 403 or
`next` outcome is reachable. -/
theorem authorizeRolesFirst_always_referenceError (S : List String) (req : Request) :
    authorizeRolesFirst S req = .error (.referenceError "PrismaClient") := rfl

/-- C10: when the identity context is present but its role field is
absent or not a string, the second `authorizeRoles` variant throws a
TypeError at `req.user.role.trim()` instead of producing a 401 or 403
response. -/
theorem authorizeRoles_nonstring_role_typeError (S : List String) (req : Request)
    (u : JwtClaims) (hu : req.user = some u) (hr : roleIsString u.role = false) :
    authorizeRoles S req = .error (.typeError "req.user.role.trim is not a function") := by
  cases hv : u.role with
  | none => simp only [authorizeRoles, hu, hv]
  | some v =>
    cases v with
    | str s => rw [hv] at hr; simp [roleIsString] at hr
    | num n => simp only [authorizeRoles, hu, hv]
    | boolean b => simp only [authorizeRoles, hu, hv]
    | null => simp only [authorizeRoles, hu, hv]

/-- Witness for C10 at an identity context with no role field. -/
theorem authorizeRoles_nonstring_role_typeError_witness :
    authorizeRoles ["admin"] ⟨none, some ⟨1, none⟩⟩ =
      .error (.typeError "req.user.role.trim is not a function") :=
  authorizeRoles_nonstring_role_typeError ["admin"] ⟨none, some ⟨1, none⟩⟩ ⟨1, none⟩ rfl rfl

/-- C2: on a successful login (email found, password verified) the
handler answers 200 with a body holding only the success message and the
access token; the refresh token it also computed is not among the tokens
the body delivers (the two tokens always differ, since their embedded
expiries differ). -/
theorem loginHandler_omits_refreshToken (env : Env) (db : List User)
    (email password : String) (now : Nat) (user : User)
    (hfind : db.find? (fun u => u.email = email) = some user)
    (hpw : bcryptCompare password user.password = true) :
    loginHandler env db email password now =
      .response 200 (.loginSuccess "Connexion réussie" (loginAccessToken env user now)) ∧
    Body.tokens (.loginSuccess "Connexion réussie" (loginAccessToken env user now)) =
      [loginAccessToken env user now] ∧
    loginRefreshToken env user now ∉
      Body.tokens (.loginSuccess "Connexion réussie" (loginAccessToken env user now)) := by
  refine ⟨?_, rfl, ?_⟩
  · simp only [loginHandler, hfind, hpw, if_true]
  · intro hmem
    simp only [Body.tokens, List.mem_singleton] at hmem
    simp only [loginRefreshToken, loginAccessToken, jwtSign, oneDayS, thirtyDaysS,
      Token.signed.injEq] at hmem
    omega

/-- Witness for C2 at a one-user store and matching credentials. -/
theorem loginHandler_omits_refreshToken_witness :
    loginHandler ⟨"as", "rs"⟩ [⟨1, "a@x.com", bcryptHash "pw1" 3, "user"⟩] "a@x.com" "pw1" 10 =
      .response 200 (.loginSuccess "Connexion réussie"
        (loginAccessToken ⟨"as", "rs"⟩ ⟨1, "a@x.com", bcryptHash "pw1" 3, "user"⟩ 10)) ∧
    Body.tokens (.loginSuccess "Connexion réussie"
        (loginAccessToken ⟨"as", "rs"⟩ ⟨1, "a@x.com", bcryptHash "pw1" 3, "user"⟩ 10)) =
      [loginAccessToken ⟨"as", "rs"⟩ ⟨1, "a@x.com", bcryptHash "pw1" 3, "user"⟩ 10] ∧
    loginRefreshToken ⟨"as", "rs"⟩ ⟨1, "a@x.com", bcryptHash "pw1" 3, "user"⟩ 10 ∉
      Body.tokens (.loginSuccess "Connexion réussie"
        (loginAccessToken ⟨"as", "rs"⟩ ⟨1, "a@x.com", bcryptHash "pw1" 3, "user"⟩ 10)) :=
  loginHandler_omits_refreshToken ⟨"as", "rs"⟩
    [⟨1, "a@x.com", bcryptHash "pw1" 3, "user"⟩] "a@x.com" "pw1" 10
    ⟨1, "a@x.com", bcryptHash "pw1" 3, "user"⟩ (by decide) rfl

/-- C6: a successful register request persists a user whose role is
exactly "user" and whose password field is the salted hash of the
submitted password, and answers 201 with the full created row — password
hash included — as the response body. -/
theorem registerHandler_success (db : List User) (e p : String) (salt : Nat)
    (hdup : db.any (fun u => u.email = e) = false) :
    registerHandler db ⟨some e, some p⟩ salt =
      (.response 201 (.userRecord ⟨db.length + 1, e, bcryptHash p salt, "user"⟩),
        db ++ [⟨db.length + 1, e, bcryptHash p salt, "user"⟩]) := by
  simp only [registerHandler, bcryptHashJs, prismaUserCreate, hdup, if_false,
    Bool.false_eq_true]

/-- Witness for C6 at an empty store. -/
theorem registerHandler_success_witness :
    registerHandler [] ⟨some "a@x.com", some "pw1"⟩ 3 =
      (.response 201 (.userRecord ⟨1, "a@x.com", bcryptHash "pw1" 3, "user"⟩),
        [⟨1, "a@x.com", bcryptHash "pw1" 3, "user"⟩]) :=
  registerHandler_success [] "a@x.com" "pw1" 3 rfl

/-- C7 counterexample: a register request whose password is present but
empty does not fail — it succeeds with 201 and persists the user — so the
claim that a missing-or-empty field yields a ValidationError-equivalent
terminal error response is false as stated. -/
theorem register_empty_password_succeeds :
    (registerHandler [] ⟨some "a@x.com", some ""⟩ 7).1 =
      .response 201 (.userRecord ⟨1, "a@x.com", bcryptHash "" 7, "user"⟩) := rfl

/-- C7 amended: only a missing (undefined) email is rejected by the
persistence layer, producing a terminal 500 error response; a missing
(undefined) password makes `bcrypt.hash` fail outside the try/catch, so
the exception escapes the handler and this code sends no response; and
present-but-empty email or password strings are accepted, the request
succeeding with 201. -/
theorem register_missing_or_empty_fields :
    (∀ (db : List User) (p : String) (salt : Nat),
      (registerHandler db ⟨none, some p⟩ salt).1 =
        .response 500 (.errorMsg "Argument email is missing.")) ∧
    (∀ (db : List User) (e : Option String) (salt : Nat),
      (registerHandler db ⟨e, none⟩ salt).1 =
        .threw (.bcryptError "Illegal arguments: undefined, number")) ∧
    (registerHandler [] ⟨some "", some ""⟩ 7).1 =
      .response 201 (.userRecord ⟨1, "", bcryptHash "" 7, "user"⟩) := by
  refine ⟨fun db p salt => rfl, fun db e salt => rfl, rfl⟩

/-- C1 (code behavior at the failing input): even when the refresh
middleware verifies the presented refresh token and attaches its claims
to the identity context, the refresh handler does not answer 200 with a
new access token — it evaluates the free identifier `user`, the
ReferenceError is caught, and the route answers 500
`{error: "Erreur serveur"}`. -/
theorem refreshEndpoint_valid_token_responds_500 (env : Env) (now : Nat) (req : Request)
    (t : Token) (c : JwtClaims)
    (ht : headerToken req.authorizationWords = some t)
    (hv : jwtVerify t env.REFRESH_TOKEN_SECRET now = .ok c) :
    refreshEndpoint env now req = .response 500 (.errorMsg "Erreur serveur") := by
  simp only [refreshEndpoint, authenticateRefreshToken, ht, hv, refreshHandler, lookupUserVar]

/-- Witness for C1 at a valid, unexpired refresh token. -/
theorem refreshEndpoint_valid_token_responds_500_witness :
    refreshEndpoint ⟨"as", "rs"⟩ 10
      ⟨some [.malformed "Bearer", .signed ⟨1, some (.str "user")⟩ "rs" 100], none⟩ =
      .response 500 (.errorMsg "Erreur serveur") :=
  refreshEndpoint_valid_token_responds_500 ⟨"as", "rs"⟩ 10
    ⟨some [.malformed "Bearer", .signed ⟨1, some (.str "user")⟩ "rs" 100], none⟩
    (.signed ⟨1, some (.str "user")⟩ "rs" 100) ⟨1, some (.str "user")⟩ rfl (by decide)

/-- C8: the login handler's access token is signed with the access-token
secret and expires 86400 seconds (1 day) after issuance, its refresh
token is signed with the refresh-token secret and expires 2592000 seconds
(30 days) after issuance, both carrying the same `{userId, role}` claim
shape; and the refresh-token middleware's outcome does not depend on the
access-token secret at all — it verifies only against the refresh-token
secret. -/
theorem token_secrets_and_ttls (a a2 r : String) (u : User) (now : Nat) (req : Request) :
    loginAccessToken ⟨a, r⟩ u now =
      .signed ⟨u.id, some (.str u.role)⟩ a (now + 86400) ∧
    loginRefreshToken ⟨a, r⟩ u now =
      .signed ⟨u.id, some (.str u.role)⟩ r (now + 2592000) ∧
    authenticateRefreshToken ⟨a, r⟩ now req = authenticateRefreshToken ⟨a2, r⟩ now req :=
  ⟨rfl, rfl, rfl⟩
